import Mathlib

/-!
Verification of the two mock HTTP servers of the abai-springs-webapp
repository:

* server 1 (`src/backend/python-server.py`, `AbaiSpringsHandler`, port 3001)
* server 2 (`src/simple-staff-server.py`, `StaffPortalHandler`, port 3004)

Both servers dispatch on the exact request path (obtained by
`urlparse(self.path).path`) and write hardcoded responses.  We embed each
handler method (`do_GET`, `do_POST`, `do_OPTIONS`) as a pure Lean function
from the request data to the response it writes.  The static-file fallback
(`SimpleHTTPRequestHandler.do_GET`, standard-library code that is not part
of the repository) and the file system are abstract parameters.  Requests
are modelled without query strings: for such requests `self.path` equals
the parsed path, which is the case for every request the claims mention.
-/

namespace AbaiSprings

/-- Model of the Python values that `json.loads` can produce and that
`json.dumps` serialises: `None`, booleans, numbers, strings, lists and
dicts.  A dict is represented as its association list of entries (the keys
produced by `json.loads` are distinct, later duplicates in the source text
having overwritten earlier ones). -/
inductive Json where
  | null : Json
  | bool : Bool → Json
  | num : Int → Json
  | str : String → Json
  | arr : List Json → Json
  | obj : List (String × Json) → Json
deriving Repr

/-- Python equality `v == s` between an arbitrary JSON-decoded value `v`
and a string literal `s`: true exactly when `v` is that string. -/
def isStr (v : Json) (s : String) : Bool :=
  match v with
  | Json.str t => t == s
  | _ => false

/-- Python `data.get(k, '')` on a decoded JSON dict: the value stored at
key `k`, or the empty string when the key is absent. -/
def dictGet (fields : List (String × Json)) (k : String) : Json :=
  match fields.lookup k with
  | some v => v
  | none => Json.str ""

/-- The keys of a JSON object (empty for non-objects). -/
def keysOf : Json → List String
  | Json.obj fields => fields.map (fun e => e.1)
  | _ => []

/-- Response bodies: nothing written, a JSON document (the code writes
`json.dumps(response).encode()`), or a literal byte string / file
contents. -/
inductive Body where
  | empty : Body
  | json : Json → Body
  | text : String → Body
deriving Repr

/-- An HTTP response as the handlers produce it: the status passed to
`send_response`, the headers passed to `send_header` in order, and the
body written to `wfile`. -/
structure HttpResponse where
  status : Nat
  headers : List (String × String)
  body : Body
deriving Repr

/-- `listStartsWith s p` : the character list `p` occurs at the start of
`s`. -/
def listStartsWith : List Char → List Char → Bool
  | _, [] => true
  | [], _ :: _ => false
  | a :: as, b :: bs => a == b && listStartsWith as bs

/-- `hasSubList sub s` : the character list `sub` occurs contiguously
somewhere in `s`. -/
def hasSubList (sub : List Char) : List Char → Bool
  | [] => listStartsWith [] sub
  | s@(_ :: rest) => listStartsWith s sub || hasSubList sub rest

/-- Model of Python's substring test `sub in s` on strings. -/
def pyIn (sub s : String) : Bool :=
  hasSubList sub.toList s.toList

/-! ## Server 1: `AbaiSpringsHandler` (`src/backend/python-server.py`) -/

/-- The three hardcoded product records returned by `/api/products`. -/
def productsFixture : List Json :=
  [Json.obj [("_id", Json.str "1"), ("name", Json.str "Abai Water 500ml"),
             ("brand", Json.str "Abai"), ("price", Json.num 50), ("stock", Json.num 150)],
   Json.obj [("_id", Json.str "2"), ("name", Json.str "Abai Water 1L"),
             ("brand", Json.str "Abai"), ("price", Json.num 80), ("stock", Json.num 200)],
   Json.obj [("_id", Json.str "3"), ("name", Json.str "Sprinkle Water 500ml"),
             ("brand", Json.str "Sprinkle"), ("price", Json.num 45), ("stock", Json.num 120)]]

/-- The two hardcoded outlet records returned by `/api/outlets`. -/
def outletsFixture : List Json :=
  [Json.obj [("_id", Json.str "1"), ("name", Json.str "Nairobi Central"),
             ("location", Json.str "Nairobi CBD"), ("phone", Json.str "+254 700 123 456"),
             ("status", Json.str "Active")],
   Json.obj [("_id", Json.str "2"), ("name", Json.str "Mombasa Branch"),
             ("location", Json.str "Mombasa City"), ("phone", Json.str "+254 700 789 012"),
             ("status", Json.str "Active")]]

/-- The two hardcoded order records returned by `/api/orders`. -/
def ordersFixture : List Json :=
  [Json.obj [("_id", Json.str "1"), ("orderNumber", Json.str "ORD001"),
             ("customer", Json.str "John Doe"), ("total", Json.num 100),
             ("status", Json.str "Delivered")],
   Json.obj [("_id", Json.str "2"), ("orderNumber", Json.str "ORD002"),
             ("customer", Json.str "Jane Smith"), ("total", Json.num 45),
             ("status", Json.str "Processing")]]

/-- The two hardcoded user records returned by `/api/auth/users`. -/
def usersFixture : List Json :=
  [Json.obj [("_id", Json.str "1"), ("name", Json.str "John Doe"),
             ("email", Json.str "john@example.com"), ("phone", Json.str "+254 700 123 456")],
   Json.obj [("_id", Json.str "2"), ("name", Json.str "Jane Smith"),
             ("email", Json.str "jane@example.com"), ("phone", Json.str "+254 700 789 012")]]

/-- The headers sent on every JSON route of server 1. -/
def jsonCorsHeaders : List (String × String) :=
  [("Content-type", "application/json"), ("Access-Control-Allow-Origin", "*")]

/-- `AbaiSpringsHandler.do_GET`.  `static` abstracts the inherited
`SimpleHTTPRequestHandler.do_GET` (standard-library static-file serving
from the chosen working directory, i.e. the file-system state); `now`
abstracts `datetime.now().isoformat()`; `path` is
`urlparse(self.path).path`. -/
def server1Get (static : String → HttpResponse) (now : String) (path : String) :
    HttpResponse :=
  if path == "/api/health" then
    { status := 200, headers := jsonCorsHeaders,
      body := Body.json (Json.obj
        [("status", Json.str "OK"), ("message", Json.str "Python server is running"),
         ("timestamp", Json.str now)]) }
  else if path == "/api/products" then
    { status := 200, headers := jsonCorsHeaders, body := Body.json (Json.arr productsFixture) }
  else if path == "/api/outlets" then
    { status := 200, headers := jsonCorsHeaders, body := Body.json (Json.arr outletsFixture) }
  else if path == "/api/orders" then
    { status := 200, headers := jsonCorsHeaders, body := Body.json (Json.arr ordersFixture) }
  else if path == "/api/auth/users" then
    { status := 200, headers := jsonCorsHeaders, body := Body.json (Json.arr usersFixture) }
  else if path == "/api/stock-alerts/statistics" then
    { status := 200, headers := jsonCorsHeaders,
      body := Body.json (Json.obj
        [("activeAlerts", Json.num 5), ("alertsSentToday", Json.num 12),
         ("monitoringActive", Json.bool true), ("totalPredictions", Json.num 8)]) }
  else if path == "/api/stock-alerts" then
    { status := 200, headers := jsonCorsHeaders, body := Body.json (Json.arr []) }
  else if path == "/admin-fixed" then
    static "/admin-dashboard-fixed.html"
  else
    static path

/-- The response of the `/api/stock-alerts/monitoring/...` POST routes,
with `action` the word chosen by `'start' in path`. -/
def monitoringResponse (action : String) : HttpResponse :=
  { status := 200, headers := jsonCorsHeaders,
    body := Body.json (Json.obj
      [("success", Json.bool true), ("message", Json.str ("Monitoring " ++ action))]) }

/-- `AbaiSpringsHandler.do_POST`: the two monitoring toggle paths, 404
with no body otherwise.  The handler touches no state, so the response is
a pure function of the parsed path. -/
def server1Post (path : String) : HttpResponse :=
  if path == "/api/stock-alerts/monitoring/start"
      || path == "/api/stock-alerts/monitoring/stop" then
    monitoringResponse (if pyIn "start" path then "started" else "stopped")
  else
    { status := 404, headers := [], body := Body.empty }

/-- Serial handling of a sequence of POST requests by server 1: the
handler holds no mutable state, so each response depends only on its own
request. -/
def server1PostSeq (paths : List String) : List HttpResponse :=
  paths.map server1Post

/-- The three CORS headers sent by both servers' `do_OPTIONS`. -/
def corsPreflightHeaders : List (String × String) :=
  [("Access-Control-Allow-Origin", "*"),
   ("Access-Control-Allow-Methods", "GET, POST, OPTIONS"),
   ("Access-Control-Allow-Headers", "Content-Type")]

/-- `AbaiSpringsHandler.do_OPTIONS`: status 200, three CORS headers,
empty body, with no inspection of the request path. -/
def server1Options (_path : String) : HttpResponse :=
  { status := 200, headers := corsPreflightHeaders, body := Body.empty }

/-! ## Server 2: `StaffPortalHandler` (`src/simple-staff-server.py`) -/

/-- `StaffPortalHandler.do_GET`.  `fs` abstracts the file system as seen
by `open(name, 'rb')` relative to the current directory (`none` meaning
`FileNotFoundError`); `static` abstracts the inherited static-file
serving; `path` is `urlparse(self.path).path`. -/
def server2Get (fs : String → Option String) (static : String → HttpResponse)
    (path : String) : HttpResponse :=
  if path == "/staff-login" then
    { status := 200, headers := [("Content-type", "text/html")],
      body := match fs "staff-login.html" with
        | some content => Body.text content
        | none => Body.text "<h1>Staff Login Page Not Found</h1>" }
  else if path == "/owner-dashboard" then
    { status := 200, headers := [("Content-type", "text/html")],
      body := match fs "owner-dashboard.html" with
        | some content => Body.text content
        | none => Body.text "<h1>Owner Dashboard Not Found</h1>" }
  else if path == "/api/health" then
    { status := 200, headers := [("Content-type", "application/json")],
      body := Body.json (Json.obj
        [("status", Json.str "OK"),
         ("message", Json.str "Staff Portal Server is running"),
         ("endpoints", Json.obj
           [("staffLogin", Json.str "/staff-login"),
            ("ownerDashboard", Json.str "/owner-dashboard"),
            ("apiHealth", Json.str "/api/health")])]) }
  else
    static path

/-- The body of a POST request as `do_POST` observes it: the handler reads
the raw bytes, then calls `.decode('utf-8')`, then `json.loads`.  We
characterise the bytes by the outcome of those two steps: bytes that are
not valid UTF-8, a UTF-8 text that is not valid JSON, or a decoded JSON
value. -/
inductive PostBody where
  | notUtf8 : PostBody
  | notJson : PostBody
  | json : Json → PostBody
deriving Repr

/-- The Python exceptions `StaffPortalHandler.do_POST` can raise without
catching them: `TypeError` from `int(None)` when the `Content-Length`
header is absent, `UnicodeDecodeError` from `.decode('utf-8')`, and
`AttributeError` from `.get` on a decoded JSON value that is not a dict.
None of these is a `json.JSONDecodeError`, the only exception the
handler catches. -/
inductive PyExc where
  | typeError : PyExc
  | unicodeDecodeError : PyExc
  | attributeError : PyExc
deriving Repr, DecidableEq

/-- The headers sent with both the 200 and the 401 login responses. -/
def staffLoginHeaders : List (String × String) :=
  [("Content-type", "application/json"),
   ("Access-Control-Allow-Origin", "*"),
   ("Access-Control-Allow-Methods", "POST, OPTIONS"),
   ("Access-Control-Allow-Headers", "Content-Type")]

/-- The 200 response written on an exact credential match. -/
def staffLoginSuccessResponse : HttpResponse :=
  { status := 200, headers := staffLoginHeaders,
    body := Body.json (Json.obj
      [("success", Json.bool true),
       ("message", Json.str "Staff login successful"),
       ("token", Json.str "mock-jwt-token"),
       ("user", Json.obj
         [("id", Json.str "1"), ("name", Json.str "Business Owner"),
          ("email", Json.str "admin@abaisprings.com"), ("role", Json.str "owner")])]) }

/-- The 401 response written on any credential mismatch. -/
def staffLoginFailResponse : HttpResponse :=
  { status := 401, headers := staffLoginHeaders,
    body := Body.json (Json.obj
      [("success", Json.bool false), ("message", Json.str "Invalid credentials")]) }

/-- The 400 response written when `json.loads` raises `JSONDecodeError`. -/
def invalidJsonResponse : HttpResponse :=
  { status := 400, headers := [("Content-type", "application/json")],
    body := Body.json (Json.obj [("error", Json.str "Invalid JSON")]) }

/-- `StaffPortalHandler.do_POST`.  `contentLength` is the value of the
`Content-Length` header (`none` when absent).  The result is `Except.ok`
with the response written, or `Except.error` with the exception that
propagates out of the handler (in which case nothing is written). -/
def server2Post (path : String) (contentLength : Option Nat) (body : PostBody) :
    Except PyExc HttpResponse :=
  if path == "/api/auth/staff-login" then
    match contentLength with
    | none => Except.error PyExc.typeError
    | some _ =>
      match body with
      | PostBody.notUtf8 => Except.error PyExc.unicodeDecodeError
      | PostBody.notJson => Except.ok invalidJsonResponse
      | PostBody.json v =>
        match v with
        | Json.obj fields =>
          if isStr (dictGet fields "email") "admin@abaisprings.com"
              && isStr (dictGet fields "password") "password123"
              && isStr (dictGet fields "role") "owner" then
            Except.ok staffLoginSuccessResponse
          else
            Except.ok staffLoginFailResponse
        | _ => Except.error PyExc.attributeError
  else
    Except.ok { status := 404, headers := [], body := Body.text "Not Found" }

/-- `StaffPortalHandler.do_OPTIONS`: identical to server 1's. -/
def server2Options (_path : String) : HttpResponse :=
  { status := 200, headers := corsPreflightHeaders, body := Body.empty }

/-- A trivial static-file handler used to instantiate the abstract
fallback parameter in closed statements. -/
def noStatic : String → HttpResponse :=
  fun _ => { status := 404, headers := [], body := Body.empty }

/-- Whether a `do_POST` run wrote a response at all (an uncaught
exception leaves the connection without one). -/
def wroteResponse (r : Except PyExc HttpResponse) : Bool :=
  match r with
  | Except.ok _ => true
  | Except.error _ => false

/-- The entries of a response's JSON object body (empty if the body is
not a JSON object). -/
def bodyFields (r : HttpResponse) : List (String × Json) :=
  match r.body with
  | Body.json (Json.obj fields) => fields
  | _ => []

/-! ## Claims -/

/-- C1, counterexample: a POST to `/api/auth/staff-login` whose body is
the two bytes `[]` parses as JSON (an empty list), yet the handler
raises an uncaught `AttributeError` at `data.get` — a list has no `.get`
— and writes no response, instead of the status-401 response the claim
requires for a non-matching credential combination. -/
theorem c1_staff_login_counterexample :
    server2Post "/api/auth/staff-login" (some 2) (PostBody.json (Json.arr []))
      = Except.error PyExc.attributeError
    ∧ wroteResponse
        (server2Post "/api/auth/staff-login" (some 2) (PostBody.json (Json.arr [])))
      = false :=
  ⟨rfl, rfl⟩

/-- C1, amended: for every POST to `/api/auth/staff-login` carrying a
`Content-Length` header and a body that parses as a JSON object, the
response is the fixed 200 success envelope exactly when the object's
`email`, `password` and `role` entries (defaulting to the empty string
when absent) are the strings `admin@abaisprings.com`, `password123`,
`owner`, and the fixed 401 failure envelope for every other combination;
the success envelope has status 200, `success: true` and the non-empty
token `mock-jwt-token`, the failure envelope status 401 and
`success: false`. -/
theorem c1_staff_login_amended (fields : List (String × Json)) (n : Nat) :
    server2Post "/api/auth/staff-login" (some n) (PostBody.json (Json.obj fields))
      = (if isStr (dictGet fields "email") "admin@abaisprings.com"
            && isStr (dictGet fields "password") "password123"
            && isStr (dictGet fields "role") "owner" then
          Except.ok staffLoginSuccessResponse
        else
          Except.ok staffLoginFailResponse)
    ∧ staffLoginSuccessResponse.status = 200
    ∧ dictGet (bodyFields staffLoginSuccessResponse) "success" = Json.bool true
    ∧ dictGet (bodyFields staffLoginSuccessResponse) "token" = Json.str "mock-jwt-token"
    ∧ "mock-jwt-token" ≠ ""
    ∧ staffLoginFailResponse.status = 401
    ∧ dictGet (bodyFields staffLoginFailResponse) "success" = Json.bool false :=
  ⟨rfl, rfl, rfl, rfl, by decide, rfl, rfl⟩

/-- C2, counterexample: the `/api/products` body is the hardcoded
three-element array, but none of its objects has a field named `id` —
the records use the key `_id`. -/
theorem c2_products_counterexample :
    (server1Get noStatic "" "/api/products").body = Body.json (Json.arr productsFixture)
    ∧ productsFixture.all (fun p => (keysOf p).contains "id") = false :=
  ⟨rfl, rfl⟩

/-- C2, amended: every GET to `/api/products` on server 1 returns status
200 with a JSON array of exactly 3 product objects, each having the
fields `_id`, `name`, `brand`, `price`, `stock`. -/
theorem c2_products_amended (static : String → HttpResponse) (now : String) :
    (server1Get static now "/api/products").status = 200
    ∧ (server1Get static now "/api/products").body = Body.json (Json.arr productsFixture)
    ∧ productsFixture.length = 3
    ∧ productsFixture.all
        (fun p => ["_id", "name", "brand", "price", "stock"].all
          (fun k => (keysOf p).contains k)) = true :=
  ⟨rfl, rfl, rfl, rfl⟩

/-- C3: a POST to `/api/auth/staff-login` whose body decodes as UTF-8
text but fails to parse as JSON (`json.loads` raises `JSONDecodeError`)
gets status 400 with body `{"error": "Invalid JSON"}`. -/
theorem c3_invalid_json_400 (n : Nat) :
    server2Post "/api/auth/staff-login" (some n) PostBody.notJson
      = Except.ok invalidJsonResponse
    ∧ invalidJsonResponse.status = 400
    ∧ invalidJsonResponse.body = Body.json (Json.obj [("error", Json.str "Invalid JSON")]) :=
  ⟨rfl, rfl, rfl⟩

/-- C4: POST to `/api/stock-alerts/monitoring/start` returns 200 with
`{"success": true, "message": "Monitoring started"}`, POST to `.../stop`
the `"Monitoring stopped"` variant, the word chosen by the substring
test `'start' in path`; the handler holds no state, so after any prior
request sequence the same response is produced, and repeated calls yield
identical output. -/
theorem c4_monitoring_idempotent (prior : List String) (n : Nat) :
    server1Post "/api/stock-alerts/monitoring/start"
      = monitoringResponse (if pyIn "start" "/api/stock-alerts/monitoring/start"
          then "started" else "stopped")
    ∧ server1Post "/api/stock-alerts/monitoring/start"
      = { status := 200, headers := jsonCorsHeaders,
          body := Body.json (Json.obj
            [("success", Json.bool true), ("message", Json.str "Monitoring started")]) }
    ∧ server1Post "/api/stock-alerts/monitoring/stop"
      = { status := 200, headers := jsonCorsHeaders,
          body := Body.json (Json.obj
            [("success", Json.bool true), ("message", Json.str "Monitoring stopped")]) }
    ∧ server1PostSeq (prior ++ ["/api/stock-alerts/monitoring/start"])
      = server1PostSeq prior ++ [monitoringResponse "started"]
    ∧ server1PostSeq (prior ++ ["/api/stock-alerts/monitoring/stop"])
      = server1PostSeq prior ++ [monitoringResponse "stopped"]
    ∧ server1PostSeq (List.replicate n "/api/stock-alerts/monitoring/start")
      = List.replicate n (monitoringResponse "started")
    ∧ server1PostSeq (List.replicate n "/api/stock-alerts/monitoring/stop")
      = List.replicate n (monitoringResponse "stopped") := by
  refine ⟨rfl, rfl, rfl, ?_, ?_, ?_, ?_⟩
  · simp [server1PostSeq]; rfl
  · simp [server1PostSeq]; rfl
  · rw [server1PostSeq, List.map_replicate]; rfl
  · rw [server1PostSeq, List.map_replicate]; rfl

/-- C5: an OPTIONS request on any path, on either server, gets status
200, exactly the three CORS headers
`Access-Control-Allow-Origin: *`,
`Access-Control-Allow-Methods: GET, POST, OPTIONS`,
`Access-Control-Allow-Headers: Content-Type`, and an empty body; the
response does not depend on the path at all. -/
theorem c5_options_cors (p q : String) :
    server1Options p
      = { status := 200,
          headers := [("Access-Control-Allow-Origin", "*"),
                      ("Access-Control-Allow-Methods", "GET, POST, OPTIONS"),
                      ("Access-Control-Allow-Headers", "Content-Type")],
          body := Body.empty }
    ∧ server2Options p
      = { status := 200,
          headers := [("Access-Control-Allow-Origin", "*"),
                      ("Access-Control-Allow-Methods", "GET, POST, OPTIONS"),
                      ("Access-Control-Allow-Headers", "Content-Type")],
          body := Body.empty }
    ∧ server1Options p = server1Options q
    ∧ server2Options p = server2Options q :=
  ⟨rfl, rfl, rfl, rfl⟩

/-- C6: a POST to a path matching none of the enumerated POST routes is
answered with status 404 and no body by server 1, and with status 404
and body `Not Found` by server 2 (whatever the request body and
`Content-Length` are). -/
theorem c6_unmatched_post_404 (path : String) (cl : Option Nat) (b : PostBody)
    (h1 : path ≠ "/api/stock-alerts/monitoring/start")
    (h2 : path ≠ "/api/stock-alerts/monitoring/stop")
    (h3 : path ≠ "/api/auth/staff-login") :
    server1Post path = { status := 404, headers := [], body := Body.empty }
    ∧ server2Post path cl b
      = Except.ok { status := 404, headers := [], body := Body.text "Not Found" } := by
  constructor
  · simp [server1Post, h1, h2]
  · simp [server2Post, h3]

/-- C6, witness at the unmatched path `/nope`. -/
theorem c6_unmatched_post_404_witness :
    server1Post "/nope" = { status := 404, headers := [], body := Body.empty }
    ∧ server2Post "/nope" none PostBody.notJson
      = Except.ok { status := 404, headers := [], body := Body.text "Not Found" } :=
  c6_unmatched_post_404 "/nope" none PostBody.notJson (by decide) (by decide) (by decide)

/-- C7: a GET to `/staff-login` or `/owner-dashboard` on server 2 always
gets status 200 with `Content-type: text/html`, whatever the file-system
state; the body is the contents of the corresponding HTML file when it
exists and the literal fallback heading otherwise — never a standard
404. -/
theorem c7_special_pages (fs : String → Option String) (static : String → HttpResponse) :
    server2Get fs static "/staff-login"
      = { status := 200, headers := [("Content-type", "text/html")],
          body := match fs "staff-login.html" with
            | some content => Body.text content
            | none => Body.text "<h1>Staff Login Page Not Found</h1>" }
    ∧ server2Get fs static "/owner-dashboard"
      = { status := 200, headers := [("Content-type", "text/html")],
          body := match fs "owner-dashboard.html" with
            | some content => Body.text content
            | none => Body.text "<h1>Owner Dashboard Not Found</h1>" } :=
  ⟨rfl, rfl⟩

/-- C8: for every static-file handler (i.e. every file-system state) and
timestamp, a GET to `/admin-fixed` on server 1 produces exactly the
response a GET to `/admin-dashboard-fixed.html` produces: both delegate
to the static handler at the rewritten path. -/
theorem c8_admin_fixed_rewrite (static : String → HttpResponse) (now : String) :
    server1Get static now "/admin-fixed"
      = server1Get static now "/admin-dashboard-fixed.html"
    ∧ server1Get static now "/admin-fixed" = static "/admin-dashboard-fixed.html" :=
  ⟨rfl, rfl⟩

/-- C9: every JSON response of server 1 — each of the seven enumerated
GET API routes and both POST monitoring routes — carries the header
`Access-Control-Allow-Origin: *`. -/
theorem c9_json_cors_header (static : String → HttpResponse) (now : String) :
    (["/api/health", "/api/products", "/api/outlets", "/api/orders",
      "/api/auth/users", "/api/stock-alerts/statistics", "/api/stock-alerts"].all
        (fun p => (server1Get static now p).headers.contains
          ("Access-Control-Allow-Origin", "*"))) = true
    ∧ (["/api/stock-alerts/monitoring/start", "/api/stock-alerts/monitoring/stop"].all
        (fun p => (server1Post p).headers.contains
          ("Access-Control-Allow-Origin", "*"))) = true :=
  ⟨rfl, rfl⟩

/-- C10: a POST to `/api/auth/staff-login` whose `Content-Length` header
is absent raises an uncaught `TypeError` (from `int(None)`), and one
whose body bytes are not valid UTF-8 raises an uncaught
`UnicodeDecodeError` (from `.decode('utf-8')`); neither is a
`json.JSONDecodeError`, the only exception the 400 branch catches, so in
both cases no response at all is written. -/
theorem c10_uncaught_exceptions (b : PostBody) (n : Nat) :
    server2Post "/api/auth/staff-login" none b = Except.error PyExc.typeError
    ∧ wroteResponse (server2Post "/api/auth/staff-login" none b) = false
    ∧ server2Post "/api/auth/staff-login" (some n) PostBody.notUtf8
      = Except.error PyExc.unicodeDecodeError
    ∧ wroteResponse (server2Post "/api/auth/staff-login" (some n) PostBody.notUtf8)
      = false :=
  ⟨rfl, rfl, rfl, rfl⟩

end AbaiSprings
